import Mathlib

/-!
Verification of the Process Task Supervisor core of codexconnector
(src/index.js).  The stateful handlers of handleCodexAgent (close, error,
heartbeat, timeout, forced kill), handleCodexCancel, the load-time
reconciliation in initDirs, and saveTasks are shallowly embedded as pure
functions over an explicit supervisor state; timers and process events are
modelled as an explicit event step function.  Timestamps are naturals
(milliseconds); machine integers do not overflow in any relevant range.
-/

/-- Signal-number table from src/index.js (the SIGNALS object). -/
def SIGNALS : Int → Option String
  | 1 => some "SIGHUP"
  | 2 => some "SIGINT"
  | 3 => some "SIGQUIT"
  | 6 => some "SIGABRT"
  | 9 => some "SIGKILL"
  | 14 => some "SIGALRM"
  | 15 => some "SIGTERM"
  | _ => none

/-- getSignalName from src/index.js: null for a null code, a signal name for
codes above 128, otherwise null.  The JS fallback string "signal n" is kept. -/
def getSignalName (code : Option Int) : Option String :=
  match code with
  | none => none
  | some c =>
      if c > 128 then
        some ((SIGNALS (c - 128)).getD ("signal " ++ toString (c - 128)))
      else none

/-- formatDuration from src/index.js.  The JS branch (ms/1000).toFixed(1) is
modelled as rounding ms to the nearest tenth of a second, half up. -/
def formatDuration (ms : Nat) : String :=
  if ms < 1000 then toString ms ++ "ms"
  else if ms < 60000 then
    toString ((ms + 50) / 100 / 10) ++ "." ++ toString ((ms + 50) / 100 % 10) ++ "s"
  else if ms < 3600000 then
    toString (ms / 60000) ++ "m " ++ toString (ms % 60000 / 1000) ++ "s"
  else
    toString (ms / 3600000) ++ "h " ++ toString (ms % 3600000 / 60000) ++ "m"

/-- Rendering of a possibly-null exit code inside a template literal, as JS
string interpolation renders null. -/
def optCodeStr : Option Int → String
  | none => "null"
  | some c => toString c

/-- Task record: the fields of the taskRecord object of handleCodexAgent that
the supervisor core reads or writes.  status is the literal string the code
stores ("running", "completed", "failed", "interrupted"). -/
structure TaskRecord where
  id : String
  status : String
  startedAt : Nat
  timeoutMs : Nat
  lastActivityAt : Nat
  completedAt : Option Nat := none
  exitCode : Option Int := none
  exitSignal : Option String := none
  failureReason : Option String := none
  errMsg : Option String := none
  heartbeatCount : Nat := 0
  stdoutBytes : Nat := 0
  stderrBytes : Nat := 0
  duration : Option Nat := none
  result : Option String := none
  pid : Option Nat := none
  deriving Repr, DecidableEq

/-- Supervisor state for one task: the record, the activeProcesses
registration (hasHandle), whether the heartbeatInterval is still scheduled,
whether the primary timeout timer is pending, and whether a 5-second forced
SIGKILL timer (armed by the timeout or cancel path) is pending. -/
structure SupState where
  record : TaskRecord
  hasHandle : Bool
  heartbeatActive : Bool
  timeoutArmed : Bool
  forcedKillArmed : Bool
  deriving Repr, DecidableEq

/-- Externally visible side effects of the handlers: kill signals sent to the
child process and heartbeat or stall events emitted. -/
inductive SupAction where
  | sigterm
  | sigkill
  | heartbeat (count : Nat)
  | stallWarning
  deriving Repr, DecidableEq

/-- The statuses the spec data model calls terminal. -/
def isTerminalStatus (s : String) : Bool :=
  s = "completed" || s = "failed" || s = "cancelled" || s = "interrupted"

/-- Failure-reason derivation from the close handler of handleCodexAgent
(src/index.js lines 502-514): a reason already set by the timeout or cancel
path wins; otherwise a signal, a mapped high exit code, or a plain nonzero
exit code produces the generic reason. -/
def deriveFailureReason (prev : Option String) (code : Option Int)
    (signal : Option String) : Option String :=
  let signalName := match signal with
    | some s => some s
    | none => getSignalName code
  match prev with
  | some r => some r
  | none =>
      match signal with
      | some s => some ("Killed by signal: " ++ s)
      | none =>
          match signalName with
          | some sn =>
              if code ≠ some 0 then
                some ("Killed by " ++ sn ++ " (exit code " ++ optCodeStr code ++ ")")
              else none
          | none =>
              if code ≠ some 0 then some ("Exited with code " ++ optCodeStr code)
              else none

/-- Close handler of handleCodexAgent (src/index.js lines 494-575): clears the
heartbeat and timeout timers, unregisters the process handle, derives the
failure reason, and finalizes the record with status "completed" exactly when
the exit code is 0. -/
def closeHandler (st : SupState) (code : Option Int) (signal : Option String)
    (now : Nat) (resultPayload : Option String) : SupState :=
  let elapsed := now - st.record.startedAt
  let signalName := match signal with
    | some s => some s
    | none => getSignalName code
  let fr := deriveFailureReason st.record.failureReason code signal
  { st with
    heartbeatActive := false
    timeoutArmed := false
    hasHandle := false
    record := { st.record with
      status := if code = some 0 then "completed" else "failed"
      exitCode := code
      exitSignal := signalName
      completedAt := some now
      duration := some elapsed
      result := resultPayload
      pid := none
      failureReason := fr } }

/-- Error handler of handleCodexAgent (src/index.js lines 577-622): spawn or
handle failure finalizes the record as failed with a process-error reason,
bypassing the exit-code logic. -/
def errorHandler (st : SupState) (msg : String) (errCode : Option String)
    (now : Nat) : SupState :=
  { st with
    heartbeatActive := false
    timeoutArmed := false
    hasHandle := false
    record := { st.record with
      status := "failed"
      errMsg := some msg
      failureReason := some ("Process error: " ++ msg ++ " (" ++ errCode.getD "unknown" ++ ")")
      completedAt := some now
      duration := some (now - st.record.startedAt)
      pid := none } }

/-- Outcome of handleCodexCancel as seen by the caller; notFound and noHandle
are returned with isError true, notRunning is an informational result. -/
inductive CancelResult where
  | notFound
  | notRunning
  | noHandle
  | ok
  deriving Repr, DecidableEq

/-- Whether a cancel outcome is reported with isError set. -/
def cancelIsError : CancelResult → Bool
  | CancelResult.notFound => true
  | CancelResult.noHandle => true
  | _ => false

/-- handleCodexCancel from src/index.js (lines 776-832), for a task whose
record exists: a non-running task gets an informational result, a running task
without a registered process handle gets an error with the record untouched,
and otherwise failureReason is set to "Cancelled by user", SIGTERM is sent and
a forced SIGKILL is armed for 5 seconds later. -/
def handleCodexCancel (st : SupState) : SupState × List SupAction × CancelResult :=
  if st.record.status ≠ "running" then (st, [], CancelResult.notRunning)
  else if ¬ st.hasHandle then (st, [], CancelResult.noHandle)
  else
    ({ st with
        forcedKillArmed := true
        record := { st.record with failureReason := some "Cancelled by user" } },
      [SupAction.sigterm], CancelResult.ok)

/-- Failure reason written by the timeout timer of handleCodexAgent
(src/index.js line 471). -/
def timeoutReason (elapsed timeoutMs : Nat) : String :=
  "Timeout after " ++ formatDuration elapsed ++ " (limit: " ++ formatDuration timeoutMs ++ ")"

/-- Timeout timer callback of handleCodexAgent (src/index.js lines 469-489):
when the pending timer fires it records the timeout failure reason, sends
SIGTERM and arms the 5-second forced SIGKILL; it never assigns status. -/
def timeoutStep (st : SupState) (now : Nat) : SupState × List SupAction :=
  if ¬ st.timeoutArmed then (st, [])
  else
    ({ st with
        timeoutArmed := false
        forcedKillArmed := true
        record := { st.record with
          failureReason := some (timeoutReason (now - st.record.startedAt) st.record.timeoutMs) } },
      [SupAction.sigterm])

/-- Forced-kill timer armed by the timeout and cancel paths (src/index.js
lines 484-488 and 812-821): SIGKILL is sent only when the task is still
running when the 5-second grace window elapses. -/
def forcedKillStep (st : SupState) : SupState × List SupAction :=
  if ¬ st.forcedKillArmed then (st, [])
  else if st.record.status = "running" then
    ({ st with forcedKillArmed := false }, [SupAction.sigkill])
  else ({ st with forcedKillArmed := false }, [])

/-- Heartbeat interval callback of handleCodexAgent (src/index.js lines
424-464): a tick on a task no longer running clears the interval and touches
nothing else; otherwise it increments heartbeatCount and emits a heartbeat
event, plus a stall warning when no activity was seen for over 120 seconds. -/
def heartbeatStep (st : SupState) (now : Nat) : SupState × List SupAction :=
  if ¬ st.heartbeatActive then (st, [])
  else if st.record.status ≠ "running" then
    ({ st with heartbeatActive := false }, [])
  else
    let n := st.record.heartbeatCount + 1
    ({ st with record := { st.record with heartbeatCount := n } },
      if now - st.record.lastActivityAt > 120000 then
        [SupAction.heartbeat n, SupAction.stallWarning]
      else [SupAction.heartbeat n])

/-- clearInterval on the heartbeat timer; clearing an already cleared timer
leaves the state as is (clearInterval on a cleared id is a no-op in Node). -/
def clearHeartbeat (st : SupState) : SupState :=
  { st with heartbeatActive := false }

/-- Load-time reconciliation from initDirs (src/index.js lines 43-49): a
persisted record found with status "running" is rewritten to "interrupted"
with the restart failure reason; every other record is kept as parsed. -/
def reconcileOnLoad (t : TaskRecord) : TaskRecord :=
  if t.status = "running" then
    { t with
      status := "interrupted"
      failureReason := some "Server restarted while task was running" }
  else t

/-- initDirs load loop over the persisted store: each saved record is
reconciled and inserted; nothing else happens to it. -/
def loadTasks (saved : List (String × TaskRecord)) : List (String × TaskRecord) :=
  saved.map (fun p => (p.1, reconcileOnLoad p.2))

/-- Supervisor state of a freshly loaded record: initDirs registers no
process handle and schedules no timers for it (src/index.js lines 37-54 spawn
nothing). -/
def loadedState (t : TaskRecord) : SupState :=
  { record := reconcileOnLoad t
    hasHandle := false
    heartbeatActive := false
    timeoutArmed := false
    forcedKillArmed := false }

/-- Task record as created by handleCodexAgent before spawning (src/index.js
lines 320-347). -/
def initialRecord (id : String) (startedAt : Nat) (timeoutMs : Nat) : TaskRecord :=
  { id := id
    status := "running"
    startedAt := startedAt
    timeoutMs := timeoutMs
    lastActivityAt := startedAt }

/-- Supervisor state right after spawn (src/index.js lines 386-490): handle
registered, heartbeat interval scheduled, timeout timer pending exactly when
timeoutMs is positive, no forced kill armed. -/
def initialState (id : String) (startedAt : Nat) (timeoutMs : Nat)
    (pid : Nat) : SupState :=
  { record := { initialRecord id startedAt timeoutMs with pid := some pid }
    hasHandle := true
    heartbeatActive := true
    timeoutArmed := decide (timeoutMs > 0)
    forcedKillArmed := false }

/-- Events delivered to one supervisor by the event loop.  The close and
error events of the child are enabled only while the process handle is still
registered: the child emits its terminal event once, while supervised. -/
inductive Event where
  | hbTick (now : Nat)
  | timeoutFire (now : Nat)
  | forcedKill
  | closeEv (code : Option Int) (signal : Option String) (now : Nat)
      (resultPayload : Option String)
  | errorEv (msg : String) (errCode : Option String) (now : Nat)
  | cancelReq
  deriving Repr

/-- One event-loop step of the supervisor. -/
def step (st : SupState) : Event → SupState × List SupAction
  | Event.hbTick now => heartbeatStep st now
  | Event.timeoutFire now => timeoutStep st now
  | Event.forcedKill => forcedKillStep st
  | Event.closeEv code signal now r =>
      if st.hasHandle then (closeHandler st code signal now r, []) else (st, [])
  | Event.errorEv msg errCode now =>
      if st.hasHandle then (errorHandler st msg errCode now, []) else (st, [])
  | Event.cancelReq =>
      let r := handleCodexCancel st
      (r.1, r.2.1)

/-- Run a sequence of events. -/
def run (st : SupState) : List Event → SupState
  | [] => st
  | e :: es => run (step st e).1 es

/-- Actions emitted along a sequence of events. -/
def runActions (st : SupState) : List Event → List SupAction
  | [] => []
  | e :: es => (step st e).2 ++ runActions (step st e).1 es

/-- Whether an action is a heartbeat event. -/
def isHeartbeatAction : SupAction → Bool
  | SupAction.heartbeat _ => true
  | _ => false

/-- Filesystem operations relevant to the task store.  fs.writeFile with the
default flag first truncates the target, then writes the data; rename is the
operation an atomic temp-and-rename save would use. -/
inductive FsOp where
  | truncateOp (path : String)
  | writeChunk (path : String) (data : String)
  | renameOp (src : String) (dst : String)
  deriving Repr, DecidableEq

/-- Path of the persisted task store (TASKS_FILE in src/index.js). -/
def tasksFilePath : String := ".codex-connector/tasks.json"

/-- saveTasks from src/index.js (lines 56-59) as the filesystem operations it
performs: a single writeFile of the serialized store straight to TASKS_FILE,
i.e. truncate then write, with no temporary file and no rename. -/
def saveTasksOps (content : String) : List FsOp :=
  [FsOp.truncateOp tasksFilePath, FsOp.writeChunk tasksFilePath content]

/-- Content of the tasks file after one filesystem operation (all of
saveTasksOps targets that one path). -/
def applyOpContent (cur : String) : FsOp → String
  | FsOp.truncateOp _ => ""
  | FsOp.writeChunk _ d => cur ++ d
  | FsOp.renameOp _ _ => cur

/-- Content of the tasks file after a list of operations. -/
def fileAfter (initial : String) : List FsOp → String
  | [] => initial
  | op :: ops => fileAfter (applyOpContent initial op) ops

/-- Whether an operation is a rename. -/
def isRenameOp : FsOp → Bool
  | FsOp.renameOp _ _ => true
  | _ => false

/-- Invariant of the spec data model restricted to the statuses the live
supervisor can actually assign: completedAt is set exactly when the record is
completed or failed. -/
def TaskInv (r : TaskRecord) : Prop :=
  r.completedAt.isSome ↔ (r.status = "completed" ∨ r.status = "failed")

/-- A terminal status string is not the running status. -/
theorem terminal_ne_running (s : String) (h : isTerminalStatus s = true) :
    s ≠ "running" := by
  simp only [isTerminalStatus, Bool.or_eq_true, decide_eq_true_eq] at h
  rcases h with ((h | h) | h) | h <;> subst h <;> decide

/-- One event-loop step preserves the completedAt invariant. -/
theorem taskInv_step (st : SupState) (e : Event) (h : TaskInv st.record) :
    TaskInv (step st e).1.record := by
  cases e with
  | hbTick now =>
      simp only [step, heartbeatStep]
      split_ifs <;> simpa [TaskInv] using h
  | timeoutFire now =>
      simp only [step, timeoutStep]
      split_ifs <;> simpa [TaskInv] using h
  | forcedKill =>
      simp only [step, forcedKillStep]
      split_ifs <;> simpa [TaskInv] using h
  | closeEv code signal now r =>
      simp only [step]
      split_ifs with hh
      · simp only [TaskInv, closeHandler]
        split_ifs <;> simp
      · exact h
  | errorEv msg ec now =>
      simp only [step]
      split_ifs with hh
      · simp [TaskInv, errorHandler]
      · exact h
  | cancelReq =>
      simp only [step, handleCodexCancel]
      split_ifs <;> simpa [TaskInv] using h

/-- Running a sequence of events preserves the completedAt invariant. -/
theorem taskInv_run (st : SupState) (evs : List Event) (h : TaskInv st.record) :
    TaskInv (run st evs).record := by
  induction evs generalizing st with
  | nil => exact h
  | cons e es ih => exact ih _ (taskInv_step st e h)

/-- Load-time reconciliation preserves the completedAt invariant (a running
record has no completedAt, and reconciliation does not add one). -/
theorem taskInv_reconcile (t : TaskRecord) (h : TaskInv t) :
    TaskInv (reconcileOnLoad t) := by
  unfold reconcileOnLoad
  split_ifs with hs
  · have hnone : t.completedAt.isSome = false := by
      rcases hc : t.completedAt with _ | v
      · simp
      · exfalso
        have := h.mp (by simp [hc])
        rcases this with h1 | h1 <;> rw [hs] at h1 <;> exact absurd h1 (by decide)
    simp [TaskInv, hnone]
  · exact h

/-- The freshly created record satisfies the completedAt invariant. -/
theorem taskInv_initial (id : String) (t0 tm pid : Nat) :
    TaskInv (initialState id t0 tm pid).record := by
  simp [TaskInv, initialState, initialRecord]

/-- On a task whose status is terminal, one event-loop step keeps the status
terminal, never changes heartbeatCount, and emits no heartbeat event. -/
theorem terminal_step (st : SupState) (e : Event)
    (h : isTerminalStatus st.record.status = true) :
    isTerminalStatus (step st e).1.record.status = true ∧
    (step st e).1.record.heartbeatCount = st.record.heartbeatCount ∧
    ∀ a ∈ (step st e).2, isHeartbeatAction a = false := by
  have hnr := terminal_ne_running st.record.status h
  cases e with
  | hbTick now =>
      simp only [step, heartbeatStep]
      split_ifs <;> simp_all
  | timeoutFire now =>
      simp only [step, timeoutStep]
      split_ifs <;> simp_all [isHeartbeatAction]
  | forcedKill =>
      simp only [step, forcedKillStep]
      split_ifs <;> simp_all [isHeartbeatAction]
  | closeEv code signal now r =>
      simp only [step]
      split_ifs with hh
      · refine ⟨?_, by simp [closeHandler], by simp⟩
        by_cases hc : code = some 0 <;> simp [closeHandler, hc, isTerminalStatus]
      · simp [h]
  | errorEv msg ec now =>
      simp only [step]
      split_ifs with hh
      · exact ⟨by simp [errorHandler, isTerminalStatus], by simp [errorHandler], by simp⟩
      · simp [h]
  | cancelReq =>
      simp only [step, handleCodexCancel]
      split_ifs <;> simp_all

/-- After a terminal transition, no event sequence changes the heartbeat
count or emits a heartbeat event. -/
theorem terminal_run (st : SupState) (evs : List Event)
    (h : isTerminalStatus st.record.status = true) :
    (run st evs).record.heartbeatCount = st.record.heartbeatCount ∧
    ∀ a ∈ runActions st evs, isHeartbeatAction a = false := by
  induction evs generalizing st with
  | nil => simp [run, runActions]
  | cons e es ih =>
      obtain ⟨h1, h2, h3⟩ := terminal_step st e h
      obtain ⟨ih1, ih2⟩ := ih (step st e).1 h1
      refine ⟨by simpa [run, h2] using ih1, ?_⟩
      intro a ha
      simp only [runActions, List.mem_append] at ha
      rcases ha with ha | ha
      · exact h3 a ha
      · exact ih2 a ha

/-- C1 counterexample: a task cancelled while running whose process then
closes from the SIGTERM it was sent is finalized with status "failed", not
"cancelled" — the close handler only ever assigns "completed" or "failed". -/
theorem c1_cancel_finalizes_cancelled_counterexample :
    (run (initialState "t1" 0 0 7)
      [Event.cancelReq, Event.closeEv none (some "SIGTERM") 100 none]).record.status
      = "failed" ∧
    (run (initialState "t1" 0 0 7)
      [Event.cancelReq, Event.closeEv none (some "SIGTERM") 100 none]).record.status
      ≠ "cancelled" ∧
    (run (initialState "t1" 0 0 7)
      [Event.cancelReq, Event.closeEv none (some "SIGTERM") 100 none]).record.failureReason
      = some "Cancelled by user" ∧
    runActions (initialState "t1" 0 0 7)
      [Event.cancelReq, Event.closeEv none (some "SIGTERM") 100 none]
      = [SupAction.sigterm] := by
  decide

/-- C1 (amended): cancelling a running task with a live handle sets
failureReason to "Cancelled by user", sends SIGTERM and arms the forced
SIGKILL; when the process then exits from the signal, the natural-exit
handler finalizes status "failed" — the code has no "cancelled" status —
while preserving the user-cancellation failureReason. -/
theorem c1_cancel_finalizes_failed (st : SupState) (sig : String) (now : Nat)
    (r : Option String)
    (hrun : st.record.status = "running") (hh : st.hasHandle = true) :
    (handleCodexCancel st).2.1 = [SupAction.sigterm] ∧
    (handleCodexCancel st).2.2 = CancelResult.ok ∧
    (handleCodexCancel st).1.record.failureReason = some "Cancelled by user" ∧
    (handleCodexCancel st).1.forcedKillArmed = true ∧
    (closeHandler (handleCodexCancel st).1 none (some sig) now r).record.status
      = "failed" ∧
    (closeHandler (handleCodexCancel st).1 none (some sig) now r).record.status
      ≠ "cancelled" ∧
    (closeHandler (handleCodexCancel st).1 none (some sig) now r).record.failureReason
      = some "Cancelled by user" := by
  simp [handleCodexCancel, hrun, hh, closeHandler, deriveFailureReason]

/-- C1 witness at a concrete cancelled task. -/
theorem c1_cancel_finalizes_failed_witness :
    (closeHandler (handleCodexCancel (initialState "t1" 0 0 7)).1 none
      (some "SIGTERM") 100 none).record.status = "failed" ∧
    (closeHandler (handleCodexCancel (initialState "t1" 0 0 7)).1 none
      (some "SIGTERM") 100 none).record.failureReason = some "Cancelled by user" :=
  ⟨(c1_cancel_finalizes_failed (initialState "t1" 0 0 7) "SIGTERM" 100 none
      (by decide) (by decide)).2.2.2.2.1,
   (c1_cancel_finalizes_failed (initialState "t1" 0 0 7) "SIGTERM" 100 none
      (by decide) (by decide)).2.2.2.2.2.2⟩

/-- C2 counterexample: the reconciled failure reason is the literal string
"Server restarted while task was running", not the claimed exact string
"supervisor restarted while task was running". -/
theorem c2_load_reconcile_counterexample :
    (reconcileOnLoad (initialRecord "t1" 0 0)).status = "interrupted" ∧
    (reconcileOnLoad (initialRecord "t1" 0 0)).failureReason
      = some "Server restarted while task was running" ∧
    (reconcileOnLoad (initialRecord "t1" 0 0)).failureReason
      ≠ some "supervisor restarted while task was running" := by
  decide

/-- C2 (amended): load reconciles a persisted running record to status
"interrupted" with the exact failureReason "Server restarted while task was
running", leaves every other record unchanged, never yields a running
record, and registers no process handle and schedules no timers for any
loaded record (no resume or re-spawn). -/
theorem c2_load_reconciles_interrupted (t : TaskRecord) (i : String) :
    (reconcileOnLoad t =
      if t.status = "running" then
        { t with
          status := "interrupted"
          failureReason := some "Server restarted while task was running" }
      else t) ∧
    (reconcileOnLoad t).status ≠ "running" ∧
    loadTasks [(i, t)] = [(i, reconcileOnLoad t)] ∧
    (loadedState t).hasHandle = false ∧
    (loadedState t).heartbeatActive = false ∧
    (loadedState t).timeoutArmed = false ∧
    (loadedState t).forcedKillArmed = false := by
  refine ⟨rfl, ?_, by simp [loadTasks], rfl, rfl, rfl, rfl⟩
  unfold reconcileOnLoad
  split_ifs with hs
  · simp
  · exact hs

/-- C3 counterexample: a task cancelled while running whose process then
exits with code 0 and no signal is finalized "completed" yet keeps
failureReason "Cancelled by user" — the reason is not absent. -/
theorem c3_exit_zero_counterexample :
    (run (initialState "t1" 0 0 7)
      [Event.cancelReq, Event.closeEv (some 0) none 50 none]).record.status
      = "completed" ∧
    (run (initialState "t1" 0 0 7)
      [Event.cancelReq, Event.closeEv (some 0) none 50 none]).record.failureReason
      = some "Cancelled by user" := by
  decide

/-- C3 (amended): an exit with code 0 and no signal always finalizes status
"completed", and the final failureReason equals whatever the record already
held: absent when nothing was pre-set, but a reason pre-set by the timeout
or cancellation path is retained, not cleared. -/
theorem c3_exit_zero_completed (st : SupState) (now : Nat) (r : Option String) :
    (closeHandler st (some 0) none now r).record.status = "completed" ∧
    (closeHandler st (some 0) none now r).record.failureReason
      = st.record.failureReason := by
  refine ⟨by simp [closeHandler], ?_⟩
  rcases hp : st.record.failureReason with _ | v <;>
    simp [closeHandler, deriveFailureReason, getSignalName, hp]

/-- C4 counterexample: start followed by a supervisor restart and load
leaves the task "interrupted" — a terminal status — with completedAt still
absent, so completedAt is not set for every terminal record. -/
theorem c4_completedAt_counterexample :
    (reconcileOnLoad (initialState "t1" 0 0 7).record).status = "interrupted" ∧
    isTerminalStatus (reconcileOnLoad (initialState "t1" 0 0 7).record).status
      = true ∧
    (reconcileOnLoad (initialState "t1" 0 0 7).record).completedAt = none := by
  decide

/-- C4 (amended): over every sequence of supervisor events from task
creation, and additionally after load reconciliation of the resulting
record, completedAt is set exactly when status is "completed" or "failed";
the reconciliation-produced "interrupted" record carries no completedAt. -/
theorem c4_completedAt_iff_terminal (id : String) (t0 tm pid : Nat)
    (evs : List Event) :
    TaskInv (run (initialState id t0 tm pid) evs).record ∧
    TaskInv (reconcileOnLoad (run (initialState id t0 tm pid) evs).record) ∧
    (reconcileOnLoad (initialRecord id t0 tm)).completedAt = none := by
  have h1 := taskInv_run (initialState id t0 tm pid) evs (taskInv_initial id t0 tm pid)
  exact ⟨h1, taskInv_reconcile _ h1, by simp [reconcileOnLoad, initialRecord]⟩

/-- C5: a failureReason already set by the timeout or cancellation path when
the process handle closes is preserved verbatim; the generic exit-code or
signal derived reason never overwrites it. -/
theorem c5_earlier_failureReason_preserved (st : SupState) (reason : String)
    (code : Option Int) (signal : Option String) (now : Nat) (r : Option String)
    (h : st.record.failureReason = some reason) :
    (closeHandler st code signal now r).record.failureReason = some reason ∧
    deriveFailureReason (some reason) code signal = some reason := by
  constructor
  · simp [closeHandler, deriveFailureReason, h]
  · simp [deriveFailureReason]

/-- C5 witness: a timeout reason set before a SIGKILL close survives. -/
theorem c5_earlier_failureReason_preserved_witness :
    (closeHandler
      { record :=
          { initialRecord "t5" 0 1000 with failureReason := some (timeoutReason 1500 1000) }
        hasHandle := true
        heartbeatActive := true
        timeoutArmed := false
        forcedKillArmed := true }
      none (some "SIGKILL") 1500 none).record.failureReason
      = some (timeoutReason 1500 1000) :=
  (c5_earlier_failureReason_preserved
    { record :=
        { initialRecord "t5" 0 1000 with failureReason := some (timeoutReason 1500 1000) }
      hasHandle := true
      heartbeatActive := true
      timeoutArmed := false
      forcedKillArmed := true }
    (timeoutReason 1500 1000) none (some "SIGKILL") 1500 none rfl).1

/-- C6 counterexample: a second cancel on the same still-running task yields
the same supervisor state as the first but sends SIGTERM again — it does
re-trigger termination signaling. -/
theorem c6_cancel_idempotent_counterexample :
    (handleCodexCancel (handleCodexCancel (initialState "t1" 0 0 7)).1).1
      = (handleCodexCancel (initialState "t1" 0 0 7)).1 ∧
    (handleCodexCancel (handleCodexCancel (initialState "t1" 0 0 7)).1).2.1
      = [SupAction.sigterm] ∧
    (handleCodexCancel (handleCodexCancel (initialState "t1" 0 0 7)).1).2.1 ≠ [] := by
  decide

/-- C6 (amended): while the task is still running, a second cancel yields
exactly the same supervisor state and record as the first, but it re-sends
SIGTERM and re-arms the forced kill rather than performing no signaling;
only once the task is no longer running is cancel a no-op that changes
nothing and sends nothing, returning the informational not-running result. -/
theorem c6_cancel_idempotent (st : SupState)
    (hrun : st.record.status = "running") (hh : st.hasHandle = true) :
    (handleCodexCancel (handleCodexCancel st).1).1 = (handleCodexCancel st).1 ∧
    (handleCodexCancel (handleCodexCancel st).1).2.1 = [SupAction.sigterm] ∧
    (∀ st2 : SupState, st2.record.status ≠ "running" →
      handleCodexCancel st2 = (st2, [], CancelResult.notRunning)) := by
  refine ⟨?_, ?_, ?_⟩
  · simp [handleCodexCancel, hrun, hh]
  · simp [handleCodexCancel, hrun, hh]
  · intro st2 h2
    simp [handleCodexCancel, h2]

/-- C6 witness at a concrete running task. -/
theorem c6_cancel_idempotent_witness :
    (handleCodexCancel (handleCodexCancel (initialState "t6" 5 0 9)).1).1
      = (handleCodexCancel (initialState "t6" 5 0 9)).1 :=
  (c6_cancel_idempotent (initialState "t6" 5 0 9) (by decide) (by decide)).1

/-- C7: when the pending timeout timer fires on a still-running task with a
positive timeoutMs, the handler records the "Timeout after ... (limit: ...)"
failure reason, sends SIGTERM and arms the forced kill without touching the
status; the armed forced kill then emits SIGKILL precisely because the task
is still running, and a forced kill never fires on a non-running task; and
whatever exit the kill eventually produces, the close handler assigns a
terminal status, so the timed-out task is never left running. -/
theorem c7_timeout_behavior (st : SupState) (now : Nat)
    (harm : st.timeoutArmed = true) (hrun : st.record.status = "running")
    (htm : 0 < st.record.timeoutMs) :
    (timeoutStep st now).2 = [SupAction.sigterm] ∧
    (timeoutStep st now).1.record.failureReason
      = some (timeoutReason (now - st.record.startedAt) st.record.timeoutMs) ∧
    (∃ a b, timeoutReason (now - st.record.startedAt) st.record.timeoutMs
      = "Timeout after " ++ a ++ " (limit: " ++ b ++ ")") ∧
    (timeoutStep st now).1.forcedKillArmed = true ∧
    (timeoutStep st now).1.record.status = "running" ∧
    (forcedKillStep (timeoutStep st now).1).2 = [SupAction.sigkill] ∧
    (∀ st2 : SupState, st2.record.status ≠ "running" →
      (forcedKillStep st2).2 = []) ∧
    (∀ code signal t2 r2, isTerminalStatus
      (closeHandler (timeoutStep st now).1 code signal t2 r2).record.status
        = true) := by
  refine ⟨by simp [timeoutStep, harm], by simp [timeoutStep, harm],
    ⟨formatDuration (now - st.record.startedAt),
     formatDuration st.record.timeoutMs, rfl⟩,
    by simp [timeoutStep, harm], by simp [timeoutStep, harm, hrun], ?_, ?_, ?_⟩
  · simp [forcedKillStep, timeoutStep, harm, hrun]
  · intro st2 h2
    simp only [forcedKillStep]
    split_ifs <;> simp_all
  · intro code signal t2 r2
    by_cases hc : code = some 0 <;>
      simp [closeHandler, hc, isTerminalStatus]

/-- C7 witness at a concrete timed-out task. -/
theorem c7_timeout_behavior_witness :
    (timeoutStep (initialState "t7" 0 1000 4) 1500).2 = [SupAction.sigterm] ∧
    (forcedKillStep (timeoutStep (initialState "t7" 0 1000 4) 1500).1).2
      = [SupAction.sigkill] :=
  ⟨(c7_timeout_behavior (initialState "t7" 0 1000 4) 1500
      (by decide) (by decide) (by decide)).1,
   (c7_timeout_behavior (initialState "t7" 0 1000 4) 1500
      (by decide) (by decide) (by decide)).2.2.2.2.2.1⟩

/-- C8 counterexample: saveTasks performs no rename, and a reader loading
between its truncate and its write observes an empty file — neither the
previous serialized store "old" nor the new one "new", i.e. a
partially-written state file is observable. -/
theorem c8_save_atomic_counterexample :
    (∀ op ∈ saveTasksOps "new", isRenameOp op = false) ∧
    fileAfter "old" (List.take 1 (saveTasksOps "new")) = "" ∧
    fileAfter "old" (saveTasksOps "new") = "new" ∧
    ("" : String) ≠ "old" ∧ ("" : String) ≠ "new" := by
  decide

/-- C8 (amended): every save is one direct writeFile of the whole serialized
store to the final tasks-file path — a truncate followed by the write, with
no temporary file and no rename — so the intermediate observable content of
the state file is empty rather than either complete store. -/
theorem c8_save_direct_write (content prev : String) :
    saveTasksOps content
      = [FsOp.truncateOp tasksFilePath, FsOp.writeChunk tasksFilePath content] ∧
    (∀ op ∈ saveTasksOps content, isRenameOp op = false) ∧
    fileAfter prev (List.take 1 (saveTasksOps content)) = "" ∧
    fileAfter prev (saveTasksOps content) = content := by
  refine ⟨rfl, ?_, rfl, ?_⟩
  · intro op hop
    simp only [saveTasksOps, List.mem_cons, List.not_mem_nil, or_false] at hop
    rcases hop with h | h <;> subst h <;> rfl
  · simp [saveTasksOps, fileAfter, applyOpContent]

/-- C9: once a task record is terminal, any sequence of further events
leaves heartbeatCount unchanged and emits no heartbeat event; the close and
error handlers clear the heartbeat timer at the terminal transition; a
heartbeat tick on a task no longer running changes nothing in the record and
emits nothing; and clearing the already-cleared heartbeat timer is a no-op,
not an error. -/
theorem c9_no_heartbeat_after_terminal (st : SupState) (evs : List Event)
    (n : Nat) (code : Option Int) (signal : Option String) (t2 : Nat)
    (r : Option String) (msg : String) (ec : Option String)
    (h : isTerminalStatus st.record.status = true) :
    (run st evs).record.heartbeatCount = st.record.heartbeatCount ∧
    (∀ a ∈ runActions st evs, isHeartbeatAction a = false) ∧
    (closeHandler st code signal t2 r).heartbeatActive = false ∧
    (errorHandler st msg ec t2).heartbeatActive = false ∧
    (heartbeatStep st n).1.record = st.record ∧
    (heartbeatStep st n).2 = [] ∧
    clearHeartbeat (clearHeartbeat st) = clearHeartbeat st := by
  obtain ⟨h1, h2⟩ := terminal_run st evs h
  have hnr := terminal_ne_running st.record.status h
  refine ⟨h1, h2, rfl, rfl, ?_, ?_, rfl⟩
  · simp only [heartbeatStep]
    split_ifs <;> simp_all
  · simp only [heartbeatStep]
    split_ifs <;> simp_all

/-- C9 witness: after a completed close, later ticks and events change no
heartbeat count. -/
theorem c9_no_heartbeat_after_terminal_witness :
    (run (closeHandler (initialState "t9" 0 0 3) (some 0) none 40 none)
      [Event.hbTick 60, Event.forcedKill, Event.cancelReq]).record.heartbeatCount
      = (closeHandler (initialState "t9" 0 0 3) (some 0) none 40 none).record.heartbeatCount :=
  (c9_no_heartbeat_after_terminal
    (closeHandler (initialState "t9" 0 0 3) (some 0) none 40 none)
    [Event.hbTick 60, Event.forcedKill, Event.cancelReq]
    60 none none 0 none "" none (by decide)).1

/-- C10: cancelling a running task whose process handle is not registered
returns the no-handle error result (reported with isError) and leaves the
supervisor state and record completely unchanged — in particular no
failureReason is set and no kill signal is sent. -/
theorem c10_cancel_no_handle_unchanged (st : SupState)
    (hrun : st.record.status = "running") (hh : st.hasHandle = false) :
    handleCodexCancel st = (st, [], CancelResult.noHandle) ∧
    cancelIsError CancelResult.noHandle = true ∧
    (handleCodexCancel st).1.record.failureReason = st.record.failureReason := by
  have h1 : handleCodexCancel st = (st, [], CancelResult.noHandle) := by
    simp [handleCodexCancel, hrun, hh]
  exact ⟨h1, rfl, by rw [h1]⟩

/-- C10 witness at a concrete running record with no registered handle. -/
theorem c10_cancel_no_handle_unchanged_witness :
    handleCodexCancel ⟨initialRecord "t10" 0 0, false, false, false, false⟩
      = (⟨initialRecord "t10" 0 0, false, false, false, false⟩, [],
          CancelResult.noHandle) :=
  (c10_cancel_no_handle_unchanged
    ⟨initialRecord "t10" 0 0, false, false, false, false⟩
    (by decide) (by decide)).1
